import Mathlib

/-!
Shallow embedding of `src/server.js`: a small LLM failover service.  A
background probe cycle (`updateAllModelsHealth`) classifies every known
model as HEALTHY or UNHEALTHY against a latency threshold and stores the
outcome in a health table (`modelHealthStatus`), and an HTTP handler
(`resolveS`, the body of `app.post` for `/api/resolve-model`) reads the
primary model's entry to decide between the primary and secondary model
of a simulation configuration.

JavaScript numbers are modelled as rationals (`ℚ`), the JS objects used
as string-keyed dictionaries as association lists, nullable values as
`Option`, and the nondeterministic `Math.random()` draws inside the mock
probe as explicit parameters.  The handler, which in JS replies through
`res`, is modelled as a function returning its response together with
the (unchanged) health table, so that statelessness is visible in the
type.
-/

namespace Server

/-- Health states a model's entry can hold: `UNKNOWN` is the initial value
(src/server.js lines 30-33); probing stores `HEALTHY` or `UNHEALTHY`
(lines 70-76). -/
inductive HealthStatus where
  | UNKNOWN
  | HEALTHY
  | UNHEALTHY
  deriving DecidableEq, Repr

/-- One entry of the health table (src/server.js lines 30-33): a status and a
nullable latency in milliseconds. -/
structure ModelHealth where
  status : HealthStatus
  latency : Option ℚ
  deriving DecidableEq, Repr

/-- One simulation configuration record (src/server.js lines 14-27). -/
structure SimulationConfig where
  id : String
  name : String
  primaryModel : String
  secondaryModel : String
  deriving DecidableEq, Repr

/-- The value a single probe resolves with (src/server.js lines 43-60):
a success flag and a reported latency in milliseconds. -/
structure ProbeResult where
  success : Bool
  latency : ℚ
  deriving DecidableEq, Repr

/-- The JSON body of a successful resolution response (src/server.js
lines 104-109 and 114-119). -/
structure ResolutionResult where
  modelToUse : String
  fallbackOccurred : Bool
  reason : String
  details : ModelHealth
  deriving DecidableEq, Repr

/-- Possible responses of the resolve-model handler.  `inputError` is the 400
response (line 91), `notFound` the 404 response (line 96), `ok` the 200 JSON
body.  `typeError` models the uncaught JavaScript TypeError raised at
line 102 when `modelHealthStatus[primaryModel]` is `undefined` and `.status`
is read from it; Express surfaces it as a 500 and no ResolutionResult is
produced. -/
inductive ResolveOutcome where
  | inputError (message : String)
  | notFound (message : String)
  | typeError
  | ok (result : ResolutionResult)
  deriving DecidableEq, Repr

/-- Indexing a JS object used as a string-keyed dictionary, viewed as an
association list: `obj[k]` is the value at the first matching key, or
`undefined` (`none`). -/
def assocLookup {α : Type} (l : List (String × α)) (k : String) : Option α :=
  (l.find? (fun e => e.1 == k)).map (fun e => e.2)

/-- The health table type: model identifier to ModelHealth. -/
abbrev HealthTable := List (String × ModelHealth)

/-- LATENCY_THRESHOLD_MS (src/server.js line 8). -/
def LATENCY_THRESHOLD_MS : ℚ := 1500

/-- HEALTH_CHECK_INTERVAL_MS (src/server.js line 7). -/
def HEALTH_CHECK_INTERVAL_MS : ℚ := 10000

/-- simulationConfigs (src/server.js lines 14-27). -/
def simulationConfigs : List (String × SimulationConfig) :=
  [("sim-101-finance",
    { id := "sim-101-finance",
      name := "Financial Analyst Interview",
      primaryModel := "gpt-4o",
      secondaryModel := "claude-3-sonnet" }),
   ("sim-202-engineering",
    { id := "sim-202-engineering",
      name := "Software Engineer Interview",
      primaryModel := "claude-3-sonnet",
      secondaryModel := "gpt-4o" })]

/-- modelHealthStatus as initialised at process start (src/server.js
lines 30-33). -/
def modelHealthStatus : HealthTable :=
  [("gpt-4o", { status := HealthStatus.UNKNOWN, latency := none }),
   ("claude-3-sonnet", { status := HealthStatus.UNKNOWN, latency := none })]

/-- JS `Math.round`: round half away from zero; on the nonnegative inputs the
mock produces this is floor of the value plus one half. -/
def mathRound (q : ℚ) : ℚ := (Rat.floor (q + 1/2) : ℚ)

/-- mockCheckLLMHealth (src/server.js lines 43-60).  The two `Math.random()`
draws are passed explicitly: `randFail` decides the 15% failure branch and
`randLatency` the reported latency (both in `[0,1)` at runtime).  The
`setTimeout` delay affects timing only, never the resolved value, and the
promise always resolves — it never rejects or throws. -/
def mockCheckLLMHealth (randFail randLatency : ℚ) : ProbeResult :=
  if randFail < 15/100 then
    { success := false, latency := 5000 + randLatency * 1000 }
  else
    { success := true, latency := mathRound (100 + randLatency * 400) }

/-- The body of the loop of updateAllModelsHealth (src/server.js lines 70-76):
classify one probe result and build the entry stored for that model.  Both
branches store the probe's reported latency; the whole record is replaced at
once. -/
def updateEntry (result : ProbeResult) : ModelHealth :=
  if result.success = true ∧ result.latency < LATENCY_THRESHOLD_MS then
    { status := HealthStatus.HEALTHY, latency := some result.latency }
  else
    { status := HealthStatus.UNHEALTHY, latency := some result.latency }

/-- updateAllModelsHealth (src/server.js lines 67-78): one probe cycle.  The
loop walks every key of the table, awaits that model's probe, and overwrites
the model's entry with the classified outcome; keys are unchanged.  `probe`
gives the outcome each model's probe resolves with during this cycle. -/
def updateAllModelsHealth (probe : String → ProbeResult) (table : HealthTable) :
    HealthTable :=
  table.map (fun e => (e.1, updateEntry (probe e.1)))

/-- Rendering of a status inside the JS template string at line 117. -/
def statusToString : HealthStatus → String
  | HealthStatus.UNKNOWN => "UNKNOWN"
  | HealthStatus.HEALTHY => "HEALTHY"
  | HealthStatus.UNHEALTHY => "UNHEALTHY"

/-- Rendering of the nullable latency inside the JS template string at
line 117 (`null` interpolates as the text "null"). -/
def latencyToString : Option ℚ → String
  | none => "null"
  | some q => toString q

/-- The POST /api/resolve-model handler (src/server.js lines 87-121) as an
explicit state-passing function: it returns the response together with the
health table after the call.  The handler body contains no assignment to
`modelHealthStatus` or `simulationConfigs`, so every return point pairs the
response with the table it was given.  `none` models a request body whose
`simulationId` field is absent; `!simulationId` is truthy for both an absent
field and the empty string (line 90). -/
def resolveS (configs : List (String × SimulationConfig)) (table : HealthTable)
    (simulationId? : Option String) : ResolveOutcome × HealthTable :=
  match simulationId? with
  | none => (ResolveOutcome.inputError "simulationId is required", table)
  | some simulationId =>
    if simulationId = "" then
      (ResolveOutcome.inputError "simulationId is required", table)
    else
      match assocLookup configs simulationId with
      | none =>
        (ResolveOutcome.notFound
          ("Simulation config for \x27" ++ simulationId ++ "\x27 not found."),
         table)
      | some config =>
        match assocLookup table config.primaryModel with
        | none => (ResolveOutcome.typeError, table)
        | some health =>
          if health.status = HealthStatus.HEALTHY then
            (ResolveOutcome.ok
              { modelToUse := config.primaryModel,
                fallbackOccurred := false,
                reason := "Primary model \x27" ++ config.primaryModel ++
                  "\x27 is healthy.",
                details := health },
             table)
          else
            (ResolveOutcome.ok
              { modelToUse := config.secondaryModel,
                fallbackOccurred := true,
                reason := "Primary model \x27" ++ config.primaryModel ++
                  "\x27 is unhealthy (Status: " ++ statusToString health.status ++
                  ", Latency: " ++ latencyToString health.latency ++ "ms).",
                details := health },
             table)

/-- The response component of the handler. -/
def resolve (configs : List (String × SimulationConfig)) (table : HealthTable)
    (simulationId? : Option String) : ResolveOutcome :=
  (resolveS configs table simulationId?).1

/-- A simulation configuration whose primaryModel has no entry in the health
table, exercising the unvalidated-model path flagged in the design notes. -/
def unregisteredConfigs : List (String × SimulationConfig) :=
  [("sim-303-legal",
    { id := "sim-303-legal",
      name := "Legal Interview",
      primaryModel := "gemini-pro",
      secondaryModel := "gpt-4o" })]

/-- Looking a model up after one probe cycle gives the classified outcome of
that model's probe exactly when the model had an entry before the cycle. -/
theorem assocLookup_updateAllModelsHealth (probe : String → ProbeResult)
    (table : HealthTable) (m : String) :
    assocLookup (updateAllModelsHealth probe table) m =
      (assocLookup table m).map (fun _ => updateEntry (probe m)) := by
  induction table with
  | nil => rfl
  | cons e t ih =>
    cases hm : (e.1 == m) with
    | true =>
      have he : e.1 = m := eq_of_beq hm
      simp [assocLookup, updateAllModelsHealth, List.find?, hm, he]
    | false =>
      simpa [assocLookup, updateAllModelsHealth, List.find?, hm] using ih

/-- C2: For every probe outcome processed in a cycle, the model's stored
status becomes HEALTHY iff the outcome reports success and its reported
latency is strictly below LATENCY_THRESHOLD_MS; every other outcome is
stored as UNHEALTHY. -/
theorem classification_law (probe : String → ProbeResult) (table : HealthTable)
    (m : String) (h : ModelHealth)
    (hm : assocLookup table m = some h) :
    ∃ h', assocLookup (updateAllModelsHealth probe table) m = some h' ∧
      (h'.status = HealthStatus.HEALTHY ↔
        (probe m).success = true ∧ (probe m).latency < LATENCY_THRESHOLD_MS) ∧
      (h'.status ≠ HealthStatus.HEALTHY → h'.status = HealthStatus.UNHEALTHY) := by
  refine ⟨updateEntry (probe m), ?_, ?_, ?_⟩
  · rw [assocLookup_updateAllModelsHealth, hm]; rfl
  · by_cases hc : (probe m).success = true ∧ (probe m).latency < LATENCY_THRESHOLD_MS <;>
      simp [updateEntry, hc]
  · by_cases hc : (probe m).success = true ∧ (probe m).latency < LATENCY_THRESHOLD_MS <;>
      simp [updateEntry, hc]

/-- C2 witness: a probe that succeeds at 2000 ms (at or above the 1500 ms
threshold) is stored with a status that is not HEALTHY, hence UNHEALTHY. -/
theorem classification_law_witness :
    ∃ h', assocLookup
        (updateAllModelsHealth (fun _ => { success := true, latency := 2000 })
          modelHealthStatus) "gpt-4o" = some h' ∧
      (h'.status = HealthStatus.HEALTHY ↔
        ({ success := true, latency := 2000 } : ProbeResult).success = true ∧
          ({ success := true, latency := 2000 } : ProbeResult).latency <
            LATENCY_THRESHOLD_MS) ∧
      (h'.status ≠ HealthStatus.HEALTHY → h'.status = HealthStatus.UNHEALTHY) :=
  classification_law (fun _ => { success := true, latency := 2000 }) modelHealthStatus
    "gpt-4o" { status := HealthStatus.UNKNOWN, latency := none } (by decide)

/-- C5: one probe cycle keeps the key set of the table, gives every model that
had an entry the classified outcome of its own probe, and classifies a
failing probe as UNHEALTHY for that model alone — no probe outcome can abort
the rest of the cycle or escape as an error (the cycle is a total function of
the per-model outcomes). -/
theorem probe_cycle_updates_all (probe : String → ProbeResult) (table : HealthTable)
    (m : String) (h : ModelHealth) (hm : assocLookup table m = some h) :
    (updateAllModelsHealth probe table).map Prod.fst = table.map Prod.fst ∧
    assocLookup (updateAllModelsHealth probe table) m = some (updateEntry (probe m)) ∧
    ((probe m).success = false →
      (updateEntry (probe m)).status = HealthStatus.UNHEALTHY) := by
  refine ⟨?_, ?_, ?_⟩
  · simp [updateAllModelsHealth]
  · rw [assocLookup_updateAllModelsHealth, hm]; rfl
  · intro hf
    have hc : ¬ ((probe m).success = true ∧ (probe m).latency < LATENCY_THRESHOLD_MS) := by
      intro hand
      rw [hf] at hand
      exact Bool.false_ne_true hand.1
    simp [updateEntry, hc]

/-- C5 witness: in a cycle where the probe for gpt-4o fails and the probe for
claude-3-sonnet succeeds quickly, gpt-4o's entry becomes UNHEALTHY while the
cycle still updates claude-3-sonnet (its entry becomes the classification of
its own probe), and the key set is unchanged. -/
theorem probe_cycle_updates_all_witness :
    (updateAllModelsHealth
        (fun n => if n = "gpt-4o" then { success := false, latency := 5300 }
          else { success := true, latency := 120 }) modelHealthStatus).map Prod.fst =
      modelHealthStatus.map Prod.fst ∧
    assocLookup (updateAllModelsHealth
        (fun n => if n = "gpt-4o" then { success := false, latency := 5300 }
          else { success := true, latency := 120 }) modelHealthStatus)
        "claude-3-sonnet" =
      some (updateEntry ((fun n => if n = "gpt-4o" then
        ({ success := false, latency := 5300 } : ProbeResult)
        else { success := true, latency := 120 }) "claude-3-sonnet")) ∧
    (((fun n => if n = "gpt-4o" then ({ success := false, latency := 5300 } : ProbeResult)
        else { success := true, latency := 120 }) "claude-3-sonnet").success = false →
      (updateEntry ((fun n => if n = "gpt-4o" then
        ({ success := false, latency := 5300 } : ProbeResult)
        else { success := true, latency := 120 }) "claude-3-sonnet")).status =
        HealthStatus.UNHEALTHY) :=
  probe_cycle_updates_all
    (fun n => if n = "gpt-4o" then { success := false, latency := 5300 }
      else { success := true, latency := 120 })
    modelHealthStatus "claude-3-sonnet"
    { status := HealthStatus.UNKNOWN, latency := none } (by decide)

/-- C10: after a cycle, a model's entry is exactly the record built from that
model's probe — the stored latency is the probe's reported latency in both
the HEALTHY and the UNHEALTHY branch, and status and latency come from the
same probe as one record; in particular every value the mock probe can
resolve with is stored with its own latency. -/
theorem entry_written_whole (probe : String → ProbeResult) (table : HealthTable)
    (m : String) (h : ModelHealth) (hm : assocLookup table m = some h) :
    assocLookup (updateAllModelsHealth probe table) m =
      some { status := (updateEntry (probe m)).status,
             latency := some (probe m).latency } ∧
    (∀ randFail randLatency : ℚ,
      (updateEntry (mockCheckLLMHealth randFail randLatency)).latency =
        some (mockCheckLLMHealth randFail randLatency).latency) := by
  constructor
  · rw [assocLookup_updateAllModelsHealth, hm, Option.map_some']
    by_cases hc : (probe m).success = true ∧ (probe m).latency < LATENCY_THRESHOLD_MS <;>
      simp [updateEntry, hc]
  · intro randFail randLatency
    by_cases hc : (mockCheckLLMHealth randFail randLatency).success = true ∧
        (mockCheckLLMHealth randFail randLatency).latency < LATENCY_THRESHOLD_MS <;>
      simp [updateEntry, hc]

/-- C10 witness: a failing probe at 5300 ms leaves gpt-4o with the pair
(UNHEALTHY, 5300) — the failing probe's latency, not null. -/
theorem entry_written_whole_witness :
    assocLookup (updateAllModelsHealth (fun _ => { success := false, latency := 5300 })
        modelHealthStatus) "gpt-4o" =
      some { status := (updateEntry ((fun _ =>
               ({ success := false, latency := 5300 } : ProbeResult)) "gpt-4o")).status,
             latency := some (({ success := false, latency := 5300 } : ProbeResult)).latency } ∧
    (∀ randFail randLatency : ℚ,
      (updateEntry (mockCheckLLMHealth randFail randLatency)).latency =
        some (mockCheckLLMHealth randFail randLatency).latency) :=
  entry_written_whole (fun _ => { success := false, latency := 5300 })
    modelHealthStatus "gpt-4o" { status := HealthStatus.UNKNOWN, latency := none }
    (by decide)

/-- C8: at process start every entry of the health table is UNKNOWN with null
latency, and after any completed probe cycle every model that has an entry
holds exactly that cycle's classification of its probe, whose status is never
UNKNOWN. -/
theorem unknown_only_before_first_probe :
    (∀ m h, assocLookup modelHealthStatus m = some h →
      h.status = HealthStatus.UNKNOWN ∧ h.latency = none) ∧
    (∀ (probe : String → ProbeResult) (table : HealthTable) (m : String)
        (h : ModelHealth),
      assocLookup (updateAllModelsHealth probe table) m = some h →
        h = updateEntry (probe m) ∧ h.status ≠ HealthStatus.UNKNOWN) := by
  constructor
  · intro m h hm
    rcases Option.map_eq_some'.1 hm with ⟨e, hf, he⟩
    have hmem := List.mem_of_find?_eq_some hf
    simp [modelHealthStatus] at hmem
    rcases hmem with h1 | h1 <;> (subst h1; cases he; exact ⟨rfl, rfl⟩)
  · intro probe table m h hm
    rw [assocLookup_updateAllModelsHealth] at hm
    rcases ht : assocLookup table m with _ | h0
    · rw [ht] at hm; cases hm
    · rw [ht, Option.map_some'] at hm
      cases hm
      refine ⟨rfl, ?_⟩
      by_cases hc : (probe m).success = true ∧ (probe m).latency < LATENCY_THRESHOLD_MS <;>
        simp [updateEntry, hc]

/-- C8 witness: gpt-4o starts as (UNKNOWN, null); after a successful 100 ms
probe its entry is the probe's classification and is not UNKNOWN. -/
theorem unknown_only_before_first_probe_witness :
    (({ status := HealthStatus.UNKNOWN, latency := none } : ModelHealth).status =
        HealthStatus.UNKNOWN ∧
      ({ status := HealthStatus.UNKNOWN, latency := none } : ModelHealth).latency =
        none) ∧
    (({ status := HealthStatus.HEALTHY, latency := some 100 } : ModelHealth) =
        updateEntry ((fun _ => { success := true, latency := 100 }) "gpt-4o") ∧
      ({ status := HealthStatus.HEALTHY, latency := some 100 } : ModelHealth).status ≠
        HealthStatus.UNKNOWN) :=
  ⟨unknown_only_before_first_probe.1 "gpt-4o"
      { status := HealthStatus.UNKNOWN, latency := none } (by decide),
   unknown_only_before_first_probe.2 (fun _ => { success := true, latency := 100 })
      modelHealthStatus "gpt-4o"
      { status := HealthStatus.HEALTHY, latency := some 100 } (by decide)⟩

/-- The fixed configuration table has no entry under the empty key, so a
successful lookup forces a non-empty simulation id. -/
theorem ne_empty_of_config_found {simId : String} {c : SimulationConfig}
    (hc : assocLookup simulationConfigs simId = some c) : simId ≠ "" := by
  intro he
  subst he
  have hnone : assocLookup simulationConfigs "" = none := by decide
  rw [hnone] at hc
  cases hc

/-- C1: for every simulation id whose configuration is found and whose
primary model has a health-table entry, resolution succeeds, and it returns
fallbackOccurred = true with the secondary model iff the primary's status is
not HEALTHY, and fallbackOccurred = false with the primary model iff the
primary's status is HEALTHY. -/
theorem resolve_fallback_iff (table : HealthTable) (simId : String)
    (c : SimulationConfig) (h : ModelHealth)
    (hc : assocLookup simulationConfigs simId = some c)
    (hh : assocLookup table c.primaryModel = some h) :
    ∃ r, resolve simulationConfigs table (some simId) = ResolveOutcome.ok r ∧
      ((r.fallbackOccurred = true ∧ r.modelToUse = c.secondaryModel) ↔
        h.status ≠ HealthStatus.HEALTHY) ∧
      ((r.fallbackOccurred = false ∧ r.modelToUse = c.primaryModel) ↔
        h.status = HealthStatus.HEALTHY) := by
  have hne : simId ≠ "" := ne_empty_of_config_found hc
  by_cases hst : h.status = HealthStatus.HEALTHY
  · have hres : resolve simulationConfigs table (some simId) =
        ResolveOutcome.ok
          { modelToUse := c.primaryModel,
            fallbackOccurred := false,
            reason := "Primary model \x27" ++ c.primaryModel ++ "\x27 is healthy.",
            details := h } := by
      simp [resolve, resolveS, hne, hc, hh, hst]
    exact ⟨_, hres, by simp [hst]⟩
  · have hres : resolve simulationConfigs table (some simId) =
        ResolveOutcome.ok
          { modelToUse := c.secondaryModel,
            fallbackOccurred := true,
            reason := "Primary model \x27" ++ c.primaryModel ++
              "\x27 is unhealthy (Status: " ++ statusToString h.status ++
              ", Latency: " ++ latencyToString h.latency ++ "ms).",
            details := h } := by
      simp [resolve, resolveS, hne, hc, hh, hst]
    exact ⟨_, hres, by simp [hst]⟩

/-- C1 witness: before any probe has completed, gpt-4o reads UNKNOWN, so
resolving sim-101-finance falls back to claude-3-sonnet. -/
theorem resolve_fallback_iff_witness :
    ∃ r, resolve simulationConfigs modelHealthStatus (some "sim-101-finance") =
        ResolveOutcome.ok r ∧
      ((r.fallbackOccurred = true ∧ r.modelToUse = "claude-3-sonnet") ↔
        ({ status := HealthStatus.UNKNOWN, latency := none } : ModelHealth).status ≠
          HealthStatus.HEALTHY) ∧
      ((r.fallbackOccurred = false ∧ r.modelToUse = "gpt-4o") ↔
        ({ status := HealthStatus.UNKNOWN, latency := none } : ModelHealth).status =
          HealthStatus.HEALTHY) :=
  resolve_fallback_iff modelHealthStatus "sim-101-finance"
    { id := "sim-101-finance", name := "Financial Analyst Interview",
      primaryModel := "gpt-4o", secondaryModel := "claude-3-sonnet" }
    { status := HealthStatus.UNKNOWN, latency := none } (by decide) (by decide)

/-- C3: on every successful resolution the `details` field is the consulted
entry of the primary model, and the response is unchanged under any change to
health-table entries other than the primary's — in particular the secondary
model's health is never read during resolution. -/
theorem resolve_details_primary_only (table₁ table₂ : HealthTable) (simId : String)
    (c : SimulationConfig) (e : ModelHealth)
    (hc : assocLookup simulationConfigs simId = some c)
    (he : assocLookup table₁ c.primaryModel = some e)
    (hagree : assocLookup table₂ c.primaryModel = assocLookup table₁ c.primaryModel) :
    (∃ r, resolve simulationConfigs table₁ (some simId) = ResolveOutcome.ok r ∧
      r.details = e) ∧
    resolve simulationConfigs table₂ (some simId) =
      resolve simulationConfigs table₁ (some simId) := by
  have hne : simId ≠ "" := ne_empty_of_config_found hc
  have he₂ : assocLookup table₂ c.primaryModel = some e := by rw [hagree, he]
  constructor
  · by_cases hst : e.status = HealthStatus.HEALTHY
    · have hres : resolve simulationConfigs table₁ (some simId) =
          ResolveOutcome.ok
            { modelToUse := c.primaryModel,
              fallbackOccurred := false,
              reason := "Primary model \x27" ++ c.primaryModel ++ "\x27 is healthy.",
              details := e } := by
        simp [resolve, resolveS, hne, hc, he, hst]
      exact ⟨_, hres, rfl⟩
    · have hres : resolve simulationConfigs table₁ (some simId) =
          ResolveOutcome.ok
            { modelToUse := c.secondaryModel,
              fallbackOccurred := true,
              reason := "Primary model \x27" ++ c.primaryModel ++
                "\x27 is unhealthy (Status: " ++ statusToString e.status ++
                ", Latency: " ++ latencyToString e.latency ++ "ms).",
              details := e } := by
        simp [resolve, resolveS, hne, hc, he, hst]
      exact ⟨_, hres, rfl⟩
  · by_cases hst : e.status = HealthStatus.HEALTHY <;>
      simp [resolve, resolveS, hne, hc, he, he₂, hst]

/-- C3 witness: changing only the secondary model's entry (claude-3-sonnet
made HEALTHY at 90 ms) leaves the resolution of sim-101-finance identical,
and `details` is the primary's UNKNOWN entry. -/
theorem resolve_details_primary_only_witness :
    (∃ r, resolve simulationConfigs modelHealthStatus (some "sim-101-finance") =
        ResolveOutcome.ok r ∧
      r.details = { status := HealthStatus.UNKNOWN, latency := none }) ∧
    resolve simulationConfigs
        [("gpt-4o", { status := HealthStatus.UNKNOWN, latency := none }),
         ("claude-3-sonnet", { status := HealthStatus.HEALTHY, latency := some 90 })]
        (some "sim-101-finance") =
      resolve simulationConfigs modelHealthStatus (some "sim-101-finance") :=
  resolve_details_primary_only modelHealthStatus
    [("gpt-4o", { status := HealthStatus.UNKNOWN, latency := none }),
     ("claude-3-sonnet", { status := HealthStatus.HEALTHY, latency := some 90 })]
    "sim-101-finance"
    { id := "sim-101-finance", name := "Financial Analyst Interview",
      primaryModel := "gpt-4o", secondaryModel := "claude-3-sonnet" }
    { status := HealthStatus.UNKNOWN, latency := none }
    (by decide) (by decide) (by decide)

/-- C4: a missing or empty simulationId yields the 400 input error for every
configuration table and health table (so no config lookup can influence it)
with the state unchanged; a non-empty id with no matching configuration
yields the 404 not-found error with the state unchanged; and the two errors
are distinct from each other and from every successful ResolutionResult. -/
theorem resolve_error_paths :
    (∀ (configs : List (String × SimulationConfig)) (table : HealthTable),
      resolveS configs table none =
        (ResolveOutcome.inputError "simulationId is required", table) ∧
      resolveS configs table (some "") =
        (ResolveOutcome.inputError "simulationId is required", table)) ∧
    (∀ (table : HealthTable) (simId : String), simId ≠ "" →
      assocLookup simulationConfigs simId = none →
      resolveS simulationConfigs table (some simId) =
        (ResolveOutcome.notFound
          ("Simulation config for \x27" ++ simId ++ "\x27 not found."), table)) ∧
    (∀ m₁ m₂ : String, ResolveOutcome.inputError m₁ ≠ ResolveOutcome.notFound m₂) ∧
    (∀ (m : String) (r : ResolutionResult),
      ResolveOutcome.inputError m ≠ ResolveOutcome.ok r ∧
      ResolveOutcome.notFound m ≠ ResolveOutcome.ok r) := by
  refine ⟨fun configs table => ⟨rfl, by simp [resolveS]⟩, ?_, ?_, ?_⟩
  · intro table simId hne hn
    simp [resolveS, hne, hn]
  · intro m₁ m₂ hcontra
    cases hcontra
  · intro m r
    refine ⟨fun hcontra => ?_, fun hcontra => ?_⟩ <;> cases hcontra

/-- C4 witness: resolving the unknown id "nonexistent" against the initial
health table yields exactly the not-found response, leaving the table as it
was. -/
theorem resolve_error_paths_witness :
    "nonexistent" ≠ "" ∧
    assocLookup simulationConfigs "nonexistent" = none ∧
    resolveS simulationConfigs modelHealthStatus (some "nonexistent") =
      (ResolveOutcome.notFound
        ("Simulation config for \x27" ++ "nonexistent" ++ "\x27 not found."),
       modelHealthStatus) :=
  ⟨by decide, by decide,
   resolve_error_paths.2.1 modelHealthStatus "nonexistent" (by decide) (by decide)⟩

/-- C9: the handler never changes the health table (its state component is
the table it was given), and a second call with the same simulation id
against the state left by the first returns the identical response —
resolution is a deterministic pure function of the configs, the table
snapshot, and the id. -/
theorem resolveS_pure (configs : List (String × SimulationConfig))
    (table : HealthTable) (simulationId? : Option String) :
    (resolveS configs table simulationId?).2 = table ∧
    (resolveS configs (resolveS configs table simulationId?).2 simulationId?).1 =
      (resolveS configs table simulationId?).1 := by
  have hsnd : ∀ t : HealthTable, (resolveS configs t simulationId?).2 = t := by
    intro t
    rcases simulationId? with _ | s
    · rfl
    · by_cases hs : s = ""
      · simp [resolveS, hs]
      · rcases hcfg : assocLookup configs s with _ | config
        · simp [resolveS, hs, hcfg]
        · rcases hh : assocLookup t config.primaryModel with _ | health
          · simp [resolveS, hs, hcfg, hh]
          · by_cases hst : health.status = HealthStatus.HEALTHY <;>
              simp [resolveS, hs, hcfg, hh, hst]
  refine ⟨hsnd table, ?_⟩
  rw [hsnd table]

/-- C7 counterexample: with a configuration whose primaryModel (gemini-pro)
has no entry in the health table, resolution does not fall back to the
secondary — no ResolutionResult is produced at all. -/
theorem unregistered_model_counterexample :
    ¬ (∃ r, resolve unregisteredConfigs modelHealthStatus (some "sim-303-legal") =
        ResolveOutcome.ok r ∧ r.fallbackOccurred = true) := by
  intro hcontra
  rcases hcontra with ⟨r, hr, _⟩
  have heval : resolve unregisteredConfigs modelHealthStatus (some "sim-303-legal") =
      ResolveOutcome.typeError := by decide
  rw [heval] at hr
  cases hr

/-- C7 amended: if a simulation's configuration is found (under a non-empty
id) but its primaryModel has no health-table entry, the handler neither
reads an UNKNOWN status nor falls back: reading `.status` of the undefined
entry raises a TypeError (an uncaught 500), no ResolutionResult is produced,
and the table is unchanged. -/
theorem unregistered_model_typeError (configs : List (String × SimulationConfig))
    (table : HealthTable) (simId : String) (c : SimulationConfig)
    (hne : simId ≠ "") (hc : assocLookup configs simId = some c)
    (hmiss : assocLookup table c.primaryModel = none) :
    resolveS configs table (some simId) = (ResolveOutcome.typeError, table) := by
  simp [resolveS, hne, hc, hmiss]

/-- C7 witness: the unregistered gemini-pro primary makes resolution of
sim-303-legal end in the TypeError outcome. -/
theorem unregistered_model_typeError_witness :
    "sim-303-legal" ≠ "" ∧
    resolveS unregisteredConfigs modelHealthStatus (some "sim-303-legal") =
      (ResolveOutcome.typeError, modelHealthStatus) :=
  ⟨by decide,
   unregistered_model_typeError unregisteredConfigs modelHealthStatus "sim-303-legal"
     { id := "sim-303-legal", name := "Legal Interview",
       primaryModel := "gemini-pro", secondaryModel := "gpt-4o" }
     (by decide) (by decide) (by decide)⟩

end Server
